import Mathlib

/-!
Verification of `scripts/strip_license_header.py`: a Doxygen input filter
that removes a fixed 12-line license banner from the start of a source
file when three substring conditions hold, and otherwise passes the
input through unchanged.

Text is embedded as `List Char`.  Python's `str.splitlines(keepends=True)`
is modelled by `splitlines` below (recognising Python's full set of line
boundary characters, with `\r\n` treated as a single boundary), and
Python's argument-free `str.lstrip` by `pyLstrip` (dropping Python
whitespace characters from the front).
-/

namespace StripLicenseHeader

/-- The line-boundary characters recognised by Python's `str.splitlines`:
LF, CR, vertical tab, form feed, FS, GS, RS, NEL, LINE SEPARATOR and
PARAGRAPH SEPARATOR.  (`\r\n` is handled as a unit in `splitAux`.) -/
def isLineBreak (c : Char) : Bool :=
  c = '\n' || c = '\r' || c = '\x0b' || c = '\x0c' ||
  c = '\x1c' || c = '\x1d' || c = '\x1e' ||
  c = '\x85' || c = '\u2028' || c = '\u2029'

/-- Python's `str.splitlines(keepends=True)`: split into lines, each line
keeping its terminator characters (`\r\n` counts as a single boundary);
a trailing segment with no terminator forms a final line; the empty
string yields no lines. -/
def splitlines : List Char → List (List Char)
  | [] => []
  | '\r' :: '\n' :: rest => ['\r', '\n'] :: splitlines rest
  | c :: rest =>
    if isLineBreak c then [c] :: splitlines rest
    else
      match splitlines rest with
      | [] => [[c]]
      | l :: ls => (c :: l) :: ls

/-- The whitespace characters stripped by Python's argument-free
`str.strip`/`str.lstrip` (the characters for which `str.isspace` holds). -/
def isPySpace (c : Char) : Bool :=
  c = ' ' || c = '\t' || c = '\n' || c = '\x0b' || c = '\x0c' || c = '\r' ||
  c = '\x1c' || c = '\x1d' || c = '\x1e' || c = '\x1f' ||
  c = '\x85' || c = '\xa0' || c = '\u1680' ||
  ('\u2000' ≤ c && c ≤ '\u200a') ||
  c = '\u2028' || c = '\u2029' || c = '\u202f' || c = '\u205f' || c = '\u3000'

/-- Python's `str.lstrip()` with no argument: drop leading whitespace. -/
def pyLstrip (s : List Char) : List Char := s.dropWhile isPySpace

/-- Python's `pat in s` substring test. -/
def containsSub (s pat : List Char) : Bool :=
  List.isPrefixOf pat s ||
    match s with
    | [] => false
    | _ :: t => containsSub t pat

/-- The literal `/**` checked against the start of the trimmed first line. -/
def slashStarStar : List Char := ['/', '*', '*']

/-- The literal `Scenery Editor X` looked for in the first 12 lines. -/
def sceneryEditorX : List Char :=
  ['S', 'c', 'e', 'n', 'e', 'r', 'y', ' ',
   'E', 'd', 'i', 't', 'o', 'r', ' ', 'X']

/-- The literal `*/` looked for in the first 12 lines. -/
def starSlash : List Char := ['*', '/']

/-- `process(data)` from `strip_license_header.py`: split into lines
keeping terminators; if there are at least 12 lines, the first line
left-stripped starts with `/**`, and the first 12 lines joined contain
both `Scenery Editor X` and `*/`, return the join of the lines from
index 12 on; otherwise return the input unchanged. -/
def process (data : List Char) : List Char :=
  let lines := splitlines data
  if 12 ≤ lines.length then
    let first12 := (lines.take 12).flatten
    let line1_stripped := pyLstrip (lines.headD [])
    if List.isPrefixOf slashStarStar line1_stripped
        && containsSub first12 sceneryEditorX
        && containsSub first12 starSlash then
      (lines.drop 12).flatten
    else data
  else data

/-- The strip/passthrough decision of `process`, as a single boolean. -/
def stripCond (data : List Char) : Bool :=
  let lines := splitlines data
  decide (12 ≤ lines.length)
    && List.isPrefixOf slashStarStar (pyLstrip (lines.headD []))
    && containsSub ((lines.take 12).flatten) sceneryEditorX
    && containsSub ((lines.take 12).flatten) starSlash

theorem process_eq (data : List Char) :
    process data =
      if stripCond data then ((splitlines data).drop 12).flatten else data := by
  by_cases h : 12 ≤ (splitlines data).length <;>
    simp [process, stripCond, h]

set_option maxHeartbeats 1000000 in
theorem flatten_splitlines (s : List Char) : (splitlines s).flatten = s := by
  induction s using splitlines.induct with
  | case1 => rfl
  | case2 rest ih => simp [splitlines, ih]
  | case3 c rest hg hbr ih =>
    rw [splitlines.eq_3 c rest hg]
    simp [hbr, ih]
  | case4 c rest hg hbr hsp ih =>
    rw [splitlines.eq_3 c rest hg]
    simp only [hbr, if_false, Bool.false_eq_true, hsp]
    rw [hsp] at ih
    simp_all
  | case5 c rest hg hbr l ls hsp ih =>
    rw [splitlines.eq_3 c rest hg]
    simp only [hbr, if_false, Bool.false_eq_true, hsp]
    rw [hsp] at ih
    simp_all

theorem process_of_stripCond (d : List Char) (h : stripCond d = true) :
    process d = ((splitlines d).drop 12).flatten := by
  rw [process_eq, if_pos h]

theorem process_of_not_stripCond (d : List Char) (h : stripCond d = false) :
    process d = d := by
  rw [process_eq]
  simp [h]

theorem stripCond_eq_true (d : List Char) : stripCond d = true ↔
    12 ≤ (splitlines d).length ∧
    List.isPrefixOf slashStarStar (pyLstrip ((splitlines d).headD [])) = true ∧
    containsSub ((splitlines d).take 12).flatten sceneryEditorX = true ∧
    containsSub ((splitlines d).take 12).flatten starSlash = true := by
  simp [stripCond, Bool.and_eq_true, decide_eq_true_eq, and_assoc]

/-- The whole input is the first 12 lines followed by the remaining lines. -/
theorem split_at_12 (d : List Char) :
    d = ((splitlines d).take 12).flatten ++ ((splitlines d).drop 12).flatten := by
  conv_lhs => rw [← flatten_splitlines d]
  rw [← List.flatten_append, List.take_append_drop]

theorem headD_take (l : List (List Char)) :
    (l.take 12).headD [] = l.headD [] := by
  cases l <;> simp

/-- `containsSub` agrees with list-infix containment, which is what
Python's `in` operator tests. -/
theorem containsSub_iff_infix (s pat : List Char) :
    containsSub s pat = true ↔ pat <:+: s := by
  induction s with
  | nil =>
    rw [containsSub]
    simp [List.isPrefixOf_iff_prefix]
  | cons c t ih =>
    rw [containsSub]
    simp [List.isPrefixOf_iff_prefix, ih, List.infix_cons_iff]

/-- `_read_input()` from `strip_license_header.py`, with its effects made
explicit: `argv1` is the optional first command-line argument,
`fileRead` the outcome of `Path(...).read_text(encoding="utf-8",
errors="replace")` (`Except.ok` carries the decoded text with
replacement characters already substituted; `Except.error` is any
raised exception, e.g. missing file or permission denied), and
`stdinData` the data available on standard input.  If an argument is
given, a successful read returns the file text and any exception falls
back to the empty string; with no argument, stdin is read. -/
def readInput (argv1 : Option String) (fileRead : Except String (List Char))
    (stdinData : List Char) : List Char :=
  match argv1 with
  | some _ =>
    match fileRead with
    | Except.ok s => s
    | Except.error _ => []
  | none => stdinData

/-- `main()` from `strip_license_header.py`: the text written to standard
output, namely `process` applied to the acquired input. -/
def mainOutput (argv1 : Option String) (fileRead : Except String (List Char))
    (stdinData : List Char) : List Char :=
  process (readInput argv1 fileRead stdinData)

/-- Modelled from the spec: the spec's step 4 describes `line1_trimmed`
as the first line with leading whitespace restricted to spaces and tabs
removed from the start only; this definition follows those words, to be
compared with the code's `pyLstrip` (Python's `lstrip()`, which strips
all Python whitespace). -/
def lstripSpacesTabs (s : List Char) : List Char :=
  s.dropWhile (fun c => c = ' ' || c = '\t')

/-- Number of (possibly overlapping) occurrences of `pat` in `s`. -/
def countOccur : List Char → List Char → Nat
  | s, pat =>
    (if List.isPrefixOf pat s then 1 else 0) +
    match s with
    | [] => 0
    | _ :: t => countOccur t pat

/-! Concrete inputs used by witnesses and counterexamples. -/

/-- A 12-line block recognised as a banner: a matching first line
followed by 11 empty lines. -/
def bannerBlock : List Char :=
  "/** Scenery Editor X */\n".toList ++ List.replicate 11 '\n'

/-- A banner followed by a line of code. -/
def bannerThenCode : List Char := bannerBlock ++ "code\n".toList

/-- Twelve lines whose first line does not start with a comment opener. -/
def plainTwelve : List Char := (List.replicate 12 ("x\n".toList)).flatten

/-- A banner whose first line starts with a no-break space (U+00A0):
not a space or tab, but stripped by Python's `lstrip()`. -/
def nbspBanner : List Char :=
  "\xa0/** Scenery Editor X */\n".toList ++ List.replicate 11 '\n'

/-- Two banners back to back: stripping the first still leaves one. -/
def doubleBanner : List Char := bannerBlock ++ bannerBlock

/-- A banner terminated by form feeds instead of newlines. -/
def formFeedBanner : List Char :=
  "/** Scenery Editor X */\x0c".toList ++ List.replicate 11 '\x0c' ++ "x".toList

/-- A banner opened by `/**/`, whose `*/` overlaps the opener. -/
def overlapBanner : List Char :=
  "/**/\n".toList ++ "Scenery Editor X\n".toList ++
    List.replicate 10 '\n' ++ "tail\n".toList

/-! Claim theorems. -/

/-- C1: for every input string, `process` returns either exactly the
input, or exactly the input with its first 12 lines removed; no other
transformation is ever applied. -/
theorem c1_strip_or_passthrough (d : List Char) :
    process d = d ∨
      (process d = ((splitlines d).drop 12).flatten ∧
        d = ((splitlines d).take 12).flatten ++ process d) := by
  by_cases h : stripCond d = true
  · right
    have hp := process_of_stripCond d h
    exact ⟨hp, by conv_lhs => rw [split_at_12 d, ← hp]⟩
  · left
    exact process_of_not_stripCond d (Bool.not_eq_true _ ▸ h)

/-- C2: on an input with at least 12 lines whose left-stripped first
line starts with `/**` and whose first 12 lines contain both
`Scenery Editor X` and `*/`, `process` returns exactly the lines from
index 12 on, and the input is byte-identical to the removed first 12
lines followed by that output. -/
theorem c2_full_banner_strips (d : List Char)
    (h12 : 12 ≤ (splitlines d).length)
    (h1 : List.isPrefixOf slashStarStar (pyLstrip ((splitlines d).headD [])) = true)
    (h2 : containsSub ((splitlines d).take 12).flatten sceneryEditorX = true)
    (h3 : containsSub ((splitlines d).take 12).flatten starSlash = true) :
    process d = ((splitlines d).drop 12).flatten ∧
      d = ((splitlines d).take 12).flatten ++ process d := by
  have hc : stripCond d = true := (stripCond_eq_true d).mpr ⟨h12, h1, h2, h3⟩
  have hp := process_of_stripCond d hc
  exact ⟨hp, by conv_lhs => rw [split_at_12 d, ← hp]⟩

theorem c2_full_banner_strips_witness :
    12 ≤ (splitlines bannerThenCode).length ∧
    List.isPrefixOf slashStarStar
      (pyLstrip ((splitlines bannerThenCode).headD [])) = true ∧
    containsSub ((splitlines bannerThenCode).take 12).flatten sceneryEditorX = true ∧
    containsSub ((splitlines bannerThenCode).take 12).flatten starSlash = true ∧
    process bannerThenCode = ((splitlines bannerThenCode).drop 12).flatten ∧
    bannerThenCode =
      ((splitlines bannerThenCode).take 12).flatten ++ process bannerThenCode :=
  ⟨by decide, by decide, by decide, by decide,
    c2_full_banner_strips bannerThenCode (by decide) (by decide) (by decide) (by decide)⟩

/-- C3: an input with fewer than 12 lines is returned unchanged; in
particular the empty input yields the empty output. -/
theorem c3_short_input_identity (d : List Char)
    (h : (splitlines d).length < 12) : process d = d := by
  apply process_of_not_stripCond
  simp [stripCond, Nat.not_le.mpr h]

theorem c3_short_input_identity_witness :
    (splitlines []).length < 12 ∧ process ([] : List Char) = [] :=
  ⟨by decide, c3_short_input_identity [] (by decide)⟩

/-- C4 counterexample: `nbspBanner` has at least 12 lines and its first
line, trimmed of leading spaces and tabs only, does not start with
`/**` (it starts with U+00A0), yet `process` does not return it
unchanged — Python's `lstrip()` strips more than spaces and tabs. -/
theorem c4_spaces_tabs_cex :
    12 ≤ (splitlines nbspBanner).length ∧
    List.isPrefixOf slashStarStar
      (lstripSpacesTabs ((splitlines nbspBanner).headD [])) = false ∧
    process nbspBanner ≠ nbspBanner :=
  ⟨by decide, by decide, by decide⟩

/-- C4 amended: the first strip condition trims the first line with
Python's `lstrip()`, which removes all leading Python whitespace (not
only spaces and tabs), and holds iff the result starts with `/**`; for
every input with at least 12 lines whose first line fails this
condition under that trimming, `process` returns the input unchanged. -/
theorem c4_lstrip_gate (d : List Char)
    (h12 : 12 ≤ (splitlines d).length)
    (h : List.isPrefixOf slashStarStar (pyLstrip ((splitlines d).headD [])) = false) :
    process d = d := by
  apply process_of_not_stripCond
  simp only [stripCond]
  rw [h]
  simp

theorem c4_lstrip_gate_witness :
    12 ≤ (splitlines plainTwelve).length ∧
    List.isPrefixOf slashStarStar
      (pyLstrip ((splitlines plainTwelve).headD [])) = false ∧
    process plainTwelve = plainTwelve :=
  ⟨by decide, by decide, c4_lstrip_gate plainTwelve (by decide) (by decide)⟩

/-- C5: if the left-stripped first line does not start with `/**`, or
the first 12 lines lack `Scenery Editor X`, or they lack `*/`, then
`process` returns the input unchanged. -/
theorem c5_failed_condition_passthrough (d : List Char)
    (h : List.isPrefixOf slashStarStar (pyLstrip ((splitlines d).headD [])) = false ∨
      containsSub ((splitlines d).take 12).flatten sceneryEditorX = false ∨
      containsSub ((splitlines d).take 12).flatten starSlash = false) :
    process d = d := by
  apply process_of_not_stripCond
  rcases h with h | h | h <;>
    · simp only [stripCond]
      rw [h]
      simp

theorem c5_failed_condition_passthrough_witness :
    (List.isPrefixOf slashStarStar
        (pyLstrip ((splitlines plainTwelve).headD [])) = false ∨
      containsSub ((splitlines plainTwelve).take 12).flatten sceneryEditorX = false ∨
      containsSub ((splitlines plainTwelve).take 12).flatten starSlash = false) ∧
    process plainTwelve = plainTwelve :=
  ⟨Or.inl (by decide),
    c5_failed_condition_passthrough plainTwelve (Or.inl (by decide))⟩

/-- C6 counterexample: `doubleBanner` is stripped by `process`, but its
output still begins with a recognised banner, so a second application
strips again and does not return its input unchanged. -/
theorem c6_double_banner_cex :
    stripCond doubleBanner = true ∧
    process doubleBanner ≠ doubleBanner ∧
    process (process doubleBanner) ≠ process doubleBanner :=
  ⟨by decide, by decide, by decide⟩

/-- C6 amended: for every input on which `process` performs a strip and
whose stripped output does not itself satisfy the banner conditions, a
second application returns its own result unchanged. -/
theorem c6_second_apply_fixed (d : List Char)
    (h : stripCond d = true) (h2 : stripCond (process d) = false) :
    process (process d) = process d :=
  process_of_not_stripCond (process d) h2

theorem c6_second_apply_fixed_witness :
    stripCond bannerThenCode = true ∧
    stripCond (process bannerThenCode) = false ∧
    process (process bannerThenCode) = process bannerThenCode :=
  ⟨by decide, by decide,
    c6_second_apply_fixed bannerThenCode (by decide) (by decide)⟩

/-- C7: the strip decision never inspects lines 13 and beyond — two
inputs with at least 12 lines each and identical first 12 lines receive
the same decision. -/
theorem c7_decision_first12_only (d1 d2 : List Char)
    (h1 : 12 ≤ (splitlines d1).length) (h2 : 12 ≤ (splitlines d2).length)
    (h : (splitlines d1).take 12 = (splitlines d2).take 12) :
    stripCond d1 = stripCond d2 := by
  have eh : (splitlines d1).headD [] = (splitlines d2).headD [] := by
    rw [← headD_take (splitlines d1), ← headD_take (splitlines d2), h]
  simp only [stripCond, eh, h, Nat.le, decide_eq_true_eq]
  rw [decide_eq_true (by omega : 12 ≤ (splitlines d1).length),
    decide_eq_true (by omega : 12 ≤ (splitlines d2).length)]

theorem c7_decision_first12_only_witness :
    12 ≤ (splitlines (bannerBlock ++ "a\n".toList)).length ∧
    12 ≤ (splitlines (bannerBlock ++ "b\n".toList)).length ∧
    (splitlines (bannerBlock ++ "a\n".toList)).take 12 =
      (splitlines (bannerBlock ++ "b\n".toList)).take 12 ∧
    stripCond (bannerBlock ++ "a\n".toList) =
      stripCond (bannerBlock ++ "b\n".toList) :=
  ⟨by decide, by decide, by decide,
    c7_decision_first12_only (bannerBlock ++ "a\n".toList)
      (bannerBlock ++ "b\n".toList) (by decide) (by decide) (by decide)⟩

/-- C8: when a file path argument is present and the read raises (for
any reason other than a decoding anomaly, which the replacing decoder
absorbs), input acquisition substitutes the empty string, and main
writes `process` of the empty string — which is empty — to standard
output rather than propagating the failure. -/
theorem c8_read_failure_empty (p e : String) (stdinData : List Char) :
    readInput (some p) (Except.error e) stdinData = [] ∧
    mainOutput (some p) (Except.error e) stdinData = process [] ∧
    process ([] : List Char) = [] :=
  ⟨rfl, rfl, rfl⟩

/-- C9: an input with fewer than 12 newline characters (and no carriage
return) can still be transformed: form feeds count as line boundaries
for the splitter, so they contribute lines toward the 12-line window. -/
theorem c9_exotic_line_breaks :
    formFeedBanner.count '\n' < 12 ∧
    '\r' ∉ formFeedBanner ∧
    12 ≤ (splitlines formFeedBanner).length ∧
    process formFeedBanner ≠ formFeedBanner :=
  ⟨by decide, by decide, by decide, by decide⟩

/-- C10: the closing-comment check can be satisfied by characters
overlapping the opener: `overlapBanner`'s first line is exactly `/**/`
plus its newline, its first 12 lines contain `Scenery Editor X` and
only the single `*/` occurrence inside `/**/`, and `process` strips the
first 12 lines. -/
theorem c10_overlapping_close :
    12 ≤ (splitlines overlapBanner).length ∧
    (splitlines overlapBanner).headD [] = "/**/\n".toList ∧
    containsSub ((splitlines overlapBanner).take 12).flatten sceneryEditorX = true ∧
    countOccur ((splitlines overlapBanner).take 12).flatten starSlash = 1 ∧
    process overlapBanner = "tail\n".toList ∧
    process overlapBanner ≠ overlapBanner :=
  ⟨by decide, by decide, by decide, by decide, by decide, by decide⟩

end StripLicenseHeader
